import Mathlib

/-!
Verification of the NumaPerf access-tracking core against its specification.

The development shallowly embeds the data structures and operations of the
profiler: the per-page access record (pagebasicaccessinfo.h), the cache-line
resident-object table (cachelineaccessinfo), the per-object diagnosis record
(diagnoseobjinfo), the two address-keyed shadow maps
(addrtopageindexshadowmap.h and the single-fragment variant), the generic
ShadowHashMap used for the object registry, and the bounded-retry atomic
increment (automics.h).

Machine counters are modelled as Nat (they are 64-bit counters incremented
once per profiled event, so wrap-around is unreachable and overflow is not
modelled). Pointers are modelled as Nat values; a NULL dereference or an
out-of-bounds array access is modelled by an explicit crash outcome.
Constants and address arithmetic come from headers that are part of the
repository (xdefines.h, addresses.h); those definitions carry a comment
marking them as modelled from the specification.
-/

namespace NumaPerf

/-- Modelled from the spec: page size is 4096 bytes (xdefines.h is missing). -/
def PAGE_SIZE : Nat := 4096

/-- Modelled from the spec: cache line size is 64 bytes (xdefines.h is missing). -/
def CACHE_LINE_SIZE : Nat := 64

/-- Modelled from the spec: number of cache lines per page, page_size divided by
cache_line_size (xdefines.h is missing). -/
def CACHE_NUM_IN_ONE_PAGE : Nat := PAGE_SIZE / CACHE_LINE_SIZE

/-- Modelled from the spec: the cache-sharing escalation threshold is a
compile-time constant whose precise value the spec leaves as configuration
(xdefines.h is missing); the claims depend only on the comparison, not on the
value, so a representative value is fixed here. -/
def CACHE_SHARING_DETAIL_THRESHOLD : Nat := 2

/-- Modelled from the spec: the page-sharing threshold, a compile-time constant
whose precise value the spec leaves as configuration (xdefines.h is missing). -/
def PAGE_SHARING_DETAIL_THRESHOLD : Nat := 2

/-- Modelled from the spec: the 48-bit address space is partitioned into
MAX_FRAGMENTS equally sized segments; the numeric value is a compile-time
constant (xdefines.h is missing) and the claims depend only on comparisons
against it. -/
def MAX_FRAGMENTS : Nat := 128

namespace ADDRESSES

/-- Modelled from the spec: page_index(addr), the page number of an address
(addresses.h is missing). -/
def getPageIndex (addr : Nat) : Nat := addr / PAGE_SIZE

/-- Modelled from the spec: cache_line_index_in_page(addr), the index of the
cache line of addr inside its page (addresses.h is missing). -/
def getCacheIndexInsidePage (addr : Nat) : Nat :=
  (addr % PAGE_SIZE) / CACHE_LINE_SIZE

end ADDRESSES

/-- Access kind passed to the access hooks (enum eAccessType in xdefines.h). -/
inductive eAccessType where
  | E_ACCESS_READ
  | E_ACCESS_WRITE
deriving DecidableEq

/-- Per-page access record, from pagebasicaccessinfo.h. The C array
cacheLineWritingNumber[CACHE_NUM_IN_ONE_PAGE] is modelled as a function from
slot index to counter; recordAccessForCacheSharing only ever touches indices
below CACHE_NUM_IN_ONE_PAGE. -/
structure PageBasicAccessInfo where
  firstTouchThreadId : Nat
  accessNumberByOtherThreads : Nat
  cacheLineWritingNumber : Nat → Nat

namespace PageBasicAccessInfo

/-- Constructor PageBasicAccessInfo(unsigned short): zeroes the counters. -/
def init (firstTouchThreadId : Nat) : PageBasicAccessInfo :=
  { firstTouchThreadId := firstTouchThreadId
    accessNumberByOtherThreads := 0
    cacheLineWritingNumber := fun _ => 0 }

/-- recordAccessForPageSharing: bump accessNumberByOtherThreads when the
accessing thread is not the first-touch thread. -/
def recordAccessForPageSharing (info : PageBasicAccessInfo)
    (accessThreadId : Nat) : PageBasicAccessInfo :=
  if info.firstTouchThreadId ≠ accessThreadId then
    { info with
      accessNumberByOtherThreads := info.accessNumberByOtherThreads + 1 }
  else
    info

/-- recordAccessForCacheSharing: on a write, bump the writing counter of the
cache line that addr falls into; reads change nothing. -/
def recordAccessForCacheSharing (info : PageBasicAccessInfo)
    (addr : Nat) (type : eAccessType) : PageBasicAccessInfo :=
  if type = eAccessType.E_ACCESS_WRITE then
    { info with
      cacheLineWritingNumber :=
        Function.update info.cacheLineWritingNumber
          (ADDRESSES.getCacheIndexInsidePage addr)
          (info.cacheLineWritingNumber (ADDRESSES.getCacheIndexInsidePage addr)
            + 1) }
  else
    info

/-- needPageSharingDetailInfo: strict comparison against the page threshold. -/
def needPageSharingDetailInfo (info : PageBasicAccessInfo) : Bool :=
  decide (PAGE_SHARING_DETAIL_THRESHOLD < info.accessNumberByOtherThreads)

/-- needCacheLineSharingDetailInfo: strict comparison of the writing counter of
the cache line of addr against the cache-sharing threshold. -/
def needCacheLineSharingDetailInfo (info : PageBasicAccessInfo)
    (addr : Nat) : Bool :=
  decide (CACHE_SHARING_DETAIL_THRESHOLD <
    info.cacheLineWritingNumber (ADDRESSES.getCacheIndexInsidePage addr))

/-- getFirstTouchThreadId accessor. -/
def getFirstTouchThreadId (info : PageBasicAccessInfo) : Nat :=
  info.firstTouchThreadId

end PageBasicAccessInfo

/-- One operation on a PageBasicAccessInfo record: the two mutators and the
three read-only queries (the queries read the record and return a value, so as
state transformers they are the identity). -/
inductive PageOp where
  | pageSharing (accessThreadId : Nat)
  | cacheSharing (addr : Nat) (type : eAccessType)
  | queryPageSharing
  | queryCacheLineSharing (addr : Nat)
  | queryFirstTouch

/-- Effect of one operation on the record state. -/
def PageOp.apply (info : PageBasicAccessInfo) : PageOp → PageBasicAccessInfo
  | .pageSharing t => info.recordAccessForPageSharing t
  | .cacheSharing a ty => info.recordAccessForCacheSharing a ty
  | .queryPageSharing => info
  | .queryCacheLineSharing _ => info
  | .queryFirstTouch => info

/-- Run a sequence of operations on a record. -/
def runPageOps (info : PageBasicAccessInfo) : List PageOp → PageBasicAccessInfo
  | [] => info
  | op :: rest => runPageOps (PageOp.apply info op) rest

/-- Slot tag constant NOT_INSERT, a 16-bit short in the source. -/
def NOT_INSERT : Nat := 0

/-- Slot tag constant INSERTING. -/
def INSERTING : Nat := 1

/-- Slot tag constant INSERTED. -/
def INSERTED : Nat := 2

/-- Outcome of a shadow-map operation in a sequential embedding. ok carries the
return value together with the map state after the call; spin is the
busy-waiting loop that, with no concurrent writer to finish the slot, never
returns; crash is a dereference of a NULL data-block pointer (undefined
behaviour in the source, so no result state is defined for it). -/
inductive OpResult (α : Type) where
  | ok (a : α)
  | spin
  | crash
deriving DecidableEq

/-- Multi-fragment shadow map, class AddressToPageIndexShadowMap. A slot is
addressed by the pair of fragment index and block index inside the fragment.
startAddress models the NULL test on the fragment pointer array; tags is the
16-bit metadata short at the head of each block; vals holds the constructed
value of a block, none when no value has ever been constructed there. The
fields written once by initialize (fragmentMappingBitNum and the mask) are
carried as plain data. -/
structure AddressToPageIndexShadowMap (V : Type) where
  fragmentMappingBitNum : Nat
  fragmentMappingBitMask : Nat
  startAddress : Nat → Bool
  tags : Nat × Nat → Nat
  vals : Nat × Nat → Option V

namespace AddressToPageIndexShadowMap

variable {V : Type}

/-- hashKey: mask the key down to its offset inside the segment, then take the
page index of that offset. -/
def hashKey (m : AddressToPageIndexShadowMap V) (key : Nat) : Nat :=
  ADDRESSES.getPageIndex (key &&& m.fragmentMappingBitMask)

/-- getDataBlock: NULL (none) when the fragment index is out of range or the
fragment has not been allocated, otherwise the slot location. -/
def getDataBlock (m : AddressToPageIndexShadowMap V) (key : Nat) :
    Option (Nat × Nat) :=
  let fragmentIndex := key >>> m.fragmentMappingBitNum
  if MAX_FRAGMENTS ≤ fragmentIndex then none
  else if m.startAddress fragmentIndex = false then none
  else some (fragmentIndex, m.hashKey key)

/-- createFragment. On an out-of-range fragment index the source assertion
fails; Asserts.assertt is not under src, and the spec prescribes a logged drop
for shadow-fragment exhaustion, so the failing assertion is modelled in the
way most favourable to the claim: it logs and the fragment table is left
unchanged. An in-range allocation zero-fills the new fragment (mmap of
anonymous private memory), so every tag in it reads NOT_INSERT. -/
def createFragment (m : AddressToPageIndexShadowMap V) (key : Nat) :
    AddressToPageIndexShadowMap V :=
  let fragmentIndex := key >>> m.fragmentMappingBitNum
  if MAX_FRAGMENTS ≤ fragmentIndex then m
  else if m.startAddress fragmentIndex then m
  else
    { m with
      startAddress := Function.update m.startAddress fragmentIndex true
      tags := fun loc => if loc.1 = fragmentIndex then NOT_INSERT else m.tags loc
      vals := fun loc => if loc.1 = fragmentIndex then none else m.vals loc }

/-- Store a value in a block and mark its tag INSERTED (the write sequence of
the winning insertIfAbsent path, and of insert). -/
def writeSlot (m : AddressToPageIndexShadowMap V) (loc : Nat × Nat) (value : V) :
    AddressToPageIndexShadowMap V :=
  { m with
    tags := Function.update m.tags loc INSERTED
    vals := Function.update m.vals loc (some value) }

/-- The tag protocol of insertIfAbsent at a located block: the compare-and-set
from NOT_INSERT to INSERTING succeeds exactly when the tag reads NOT_INSERT,
after which the value is constructed and the tag set to INSERTED; a loser sees
either INSERTED (return false, nothing written) or INSERTING (busy-wait). -/
def insertAtBlock (m : AddressToPageIndexShadowMap V) (loc : Nat × Nat)
    (value : V) : OpResult (Bool × AddressToPageIndexShadowMap V) :=
  if m.tags loc = NOT_INSERT then .ok (true, m.writeSlot loc value)
  else if m.tags loc = INSERTED then .ok (false, m)
  else .spin

/-- insertIfAbsent. When getDataBlock is NULL it calls createFragment and looks
the block up again; if the block is still NULL (out-of-range fragment index)
the source goes on to use the NULL pointer as the metadata short for the
compare-and-set, which is a NULL dereference, modelled as crash. -/
def insertIfAbsent (m : AddressToPageIndexShadowMap V) (key : Nat) (value : V) :
    OpResult (Bool × AddressToPageIndexShadowMap V) :=
  match m.getDataBlock key with
  | some loc => m.insertAtBlock loc value
  | none =>
    let m1 := m.createFragment key
    match m1.getDataBlock key with
    | some loc => m1.insertAtBlock loc value
    | none => .crash

/-- insert. Unconditionally constructs the value and marks the tag INSERTED;
when the data block is still NULL after createFragment the source placement-new
constructs the value at offset META_DATA_SIZE from NULL, modelled as crash. -/
def insert (m : AddressToPageIndexShadowMap V) (key : Nat) (value : V) :
    OpResult (AddressToPageIndexShadowMap V) :=
  match m.getDataBlock key with
  | some loc => .ok (m.writeSlot loc value)
  | none =>
    let m1 := m.createFragment key
    match m1.getDataBlock key with
    | some loc => .ok (m1.writeSlot loc value)
    | none => .crash

/-- find. Pure: NULL when the data block is NULL or the tag is not INSERTED,
otherwise the pointer to the value area, modelled as the stored content. -/
def find (m : AddressToPageIndexShadowMap V) (key : Nat) : Option (Option V) :=
  match m.getDataBlock key with
  | none => none
  | some loc =>
    if m.tags loc = INSERTED then some (m.vals loc) else none

end AddressToPageIndexShadowMap

/-- Single-fragment shadow map, class AddressToPageIndexSingleFragShadowMap
(source file basicpageshadowmap.h). getDataBlock performs no bounds check (the
assertion is commented out in the source), so every key maps to a block. -/
structure AddressToPageIndexSingleFragShadowMap (V : Type) where
  tags : Nat → Nat
  vals : Nat → Option V

namespace AddressToPageIndexSingleFragShadowMap

variable {V : Type}

/-- hashKey: the page index of the key. -/
def hashKey (key : Nat) : Nat := ADDRESSES.getPageIndex key

/-- getDataBlock: the block index, with no range check. -/
def getDataBlock (key : Nat) : Nat := hashKey key

/-- Store a value in a block and mark its tag INSERTED. -/
def writeSlot (m : AddressToPageIndexSingleFragShadowMap V) (idx : Nat)
    (value : V) : AddressToPageIndexSingleFragShadowMap V :=
  { tags := Function.update m.tags idx INSERTED
    vals := Function.update m.vals idx (some value) }

/-- insertIfAbsent: the compare-and-set from NOT_INSERT to INSERTING succeeds
exactly when the tag reads NOT_INSERT, after which the value is constructed in
the block and the tag set to INSERTED; a loser busy-waits until the tag reads
INSERTED and returns false without writing anything. -/
def insertIfAbsent (m : AddressToPageIndexSingleFragShadowMap V) (key : Nat)
    (value : V) : OpResult (Bool × AddressToPageIndexSingleFragShadowMap V) :=
  let idx := getDataBlock key
  if m.tags idx = NOT_INSERT then .ok (true, m.writeSlot idx value)
  else if m.tags idx = INSERTED then .ok (false, m)
  else .spin

/-- insert: unconditional construct-then-mark. -/
def insert (m : AddressToPageIndexSingleFragShadowMap V) (key : Nat)
    (value : V) : AddressToPageIndexSingleFragShadowMap V :=
  m.writeSlot (getDataBlock key) value

/-- find: NULL unless the tag reads INSERTED. -/
def find (m : AddressToPageIndexSingleFragShadowMap V) (key : Nat) :
    Option (Option V) :=
  let idx := getDataBlock key
  if m.tags idx = INSERTED then some (m.vals idx) else none

end AddressToPageIndexSingleFragShadowMap

/-- Generic hash map backing the object registry, class ShadowHashMap
(shadowhashmap.h). Each slot is a bool flag followed by the value; inserted
models the flag array, vals the value area, none meaning that no value has
ever been stored in the slot. -/
structure ShadowHashMap (K V : Type) where
  hashFuncPtr : K → Nat
  inserted : Nat → Bool
  vals : Nat → Option V

namespace ShadowHashMap

variable {K V : Type}

/-- hashKey: apply the registered hash function. -/
def hashKey (m : ShadowHashMap K V) (key : K) : Nat := m.hashFuncPtr key

/-- The first step of insertIfAbsent: the compare-and-set of the slot flag from
false to true. Returns the boolean result together with the map state right
after the step, before any value has been stored. -/
def insertIfAbsentCAS (m : ShadowHashMap K V) (key : K) :
    Bool × ShadowHashMap K V :=
  let index := m.hashKey key
  if m.inserted index then (false, m)
  else (true, { m with inserted := Function.update m.inserted index true })

/-- The second step of insertIfAbsent: store the value into the slot. -/
def insertIfAbsentStore (m : ShadowHashMap K V) (key : K) (value : V) :
    ShadowHashMap K V :=
  { m with vals := Function.update m.vals (m.hashKey key) (some value) }

/-- insertIfAbsent: compare-and-set the flag first, then store the value. -/
def insertIfAbsent (m : ShadowHashMap K V) (key : K) (value : V) :
    Bool × ShadowHashMap K V :=
  match m.insertIfAbsentCAS key with
  | (false, m1) => (false, m1)
  | (true, m1) => (true, m1.insertIfAbsentStore key value)

/-- insert: store the value first, then set the flag. -/
def insert (m : ShadowHashMap K V) (key : K) (value : V) : ShadowHashMap K V :=
  let index := m.hashKey key
  { m with
    vals := Function.update m.vals index (some value)
    inserted := Function.update m.inserted index true }

/-- find: NULL (none) when the flag is clear, otherwise the pointer to the
value area of the slot, modelled as its stored content (none when the slot has
been claimed but no value has been stored yet). -/
def find (m : ShadowHashMap K V) (key : K) : Option (Option V) :=
  let index := m.hashKey key
  if m.inserted index then some (m.vals index) else none

end ShadowHashMap

/-- Per-object diagnosis record, class DiagnoseObjInfo (diagnoseobjinfo.h).
The objectInfo pointer member is modelled as a Nat pointer value; the embedded
top-K priority queue takes no part in the claims about this record and is
omitted. -/
structure DiagnoseObjInfo where
  objectInfo : Nat
  allInvalidNumInMainThread : Nat
  allInvalidNumInOtherThreads : Nat
  allAccessNumInMainThread : Nat
  allAccessNumInOtherThread : Nat
deriving DecidableEq

namespace DiagnoseObjInfo

/-- The private constructor DiagnoseObjInfo(ObjectInfo *objectInfo). Its body
runs the statement objectInfo = objectInfo, which assigns the parameter to
itself because the parameter shadows the member, so the member is never
assigned and keeps whatever bytes the placement-new buffer already held;
buffObjectInfo is that prior content. The four counters are assigned zero. -/
def construct (buffObjectInfo : Nat) (o : Nat) : DiagnoseObjInfo :=
  { objectInfo := buffObjectInfo
    allInvalidNumInMainThread := 0
    allInvalidNumInOtherThreads := 0
    allAccessNumInMainThread := 0
    allAccessNumInOtherThread := 0 }

/-- createNewDiagnoseObjInfo: take a buffer from the memory pool (its prior
objectInfo bytes are buffObjectInfo) and placement-new the record in it. -/
def createNewDiagnoseObjInfo (buffObjectInfo : Nat) (o : Nat) :
    DiagnoseObjInfo :=
  construct buffObjectInfo o

end DiagnoseObjInfo

namespace CacheLineAccessInfo

/-- The two assertions at the head of
CacheLineAccessInfo.findObjectInCacheLine: the address is at least the cache
line start and at most the start plus CACHE_LINE_SIZE. -/
def findObjectPre (cacheLineStartAddress address : Nat) : Prop :=
  cacheLineStartAddress ≤ address ∧
    address ≤ cacheLineStartAddress + CACHE_LINE_SIZE

instance (s a : Nat) : Decidable (findObjectPre s a) := by
  unfold findObjectPre; infer_instance

/-- The index findObjectInCacheLine computes into the
residentObjectsInfoPtr[CACHE_LINE_SIZE] array. -/
def findObjectIndex (cacheLineStartAddress address : Nat) : Nat :=
  address - cacheLineStartAddress

/-- The array access residentObjectsInfoPtr[index] is in bounds exactly when
the index is below the array length CACHE_LINE_SIZE. -/
def indexInBounds (index : Nat) : Prop := index < CACHE_LINE_SIZE

instance (i : Nat) : Decidable (indexInBounds i) := by
  unfold indexInBounds; infer_instance

end CacheLineAccessInfo

namespace Automics

/-- One compare-and-set attempt of automicIncrease is driven by the
environment: the attempt reads some current value of the target and either
wins its compare-and-set or loses it to a concurrent writer. A schedule is the
list of these observations, in order. casLoopForever is the retry loop used
when retry_num is negative: it runs until an attempt wins, returning the
value after the addition; none means the loop is still running when the
schedule ends. -/
def casLoopForever (delta : Int) : List (Int × Bool) → Option Int
  | [] => none
  | (v, true) :: _ => some (v + delta)
  | (_, false) :: rest => casLoopForever delta rest

/-- casLoopBounded is the for loop of automicIncrease for a non-negative retry
budget: at most n attempts; when every attempt loses its compare-and-set the
function returns the sentinel -1; none means the schedule did not describe all
n attempts. -/
def casLoopBounded (delta : Int) : Nat → List (Int × Bool) → Option Int
  | 0, _ => some (-1)
  | _ + 1, [] => none
  | _ + 1, (v, true) :: _ => some (v + delta)
  | n + 1, (_, false) :: rest => casLoopBounded delta n rest

/-- automicIncrease(targetValue, increaseNumber, retry_num), with the reads of
the target and the compare-and-set outcomes supplied by the schedule. -/
def automicIncrease (delta : Int) (retryNum : Int)
    (sched : List (Int × Bool)) : Option Int :=
  if retryNum < 0 then casLoopForever delta sched
  else casLoopBounded delta retryNum.toNat sched

/-- A schedule prefix in which every attempt loses its compare-and-set. -/
def failing (l : List Int) : List (Int × Bool) := l.map (fun v => (v, false))

end Automics

/-- A freshly initialized multi-fragment shadow map over Nat values: 32-bit
segments, no fragment allocated, all tags NOT_INSERT. -/
def sampleMap : AddressToPageIndexShadowMap Nat :=
  { fragmentMappingBitNum := 32
    fragmentMappingBitMask := 2 ^ 32 - 1
    startAddress := fun _ => false
    tags := fun _ => 0
    vals := fun _ => none }

/-- The sample map with every fragment allocated and still all-zero tags. -/
def sampleMapAllocated : AddressToPageIndexShadowMap Nat :=
  { sampleMap with startAddress := fun _ => true }

/-- An address whose fragment index equals MAX_FRAGMENTS, one past the last
supported fragment of sampleMap. -/
def outOfRangeKey : Nat := MAX_FRAGMENTS <<< 32

/-- A fresh single-fragment shadow map over Nat values. -/
def sampleSingleFragMap : AddressToPageIndexSingleFragShadowMap Nat :=
  { tags := fun _ => 0
    vals := fun _ => none }

/-- A fresh object-registry hash map over Nat keys and values, hashing by
identity, with every slot flag clear and no value ever stored. -/
def sampleHashMap : ShadowHashMap Nat Nat :=
  { hashFuncPtr := fun k => k
    inserted := fun _ => false
    vals := fun _ => none }

end NumaPerf

namespace NumaPerf

/-- Helper for claim C9: a single operation never decreases the two counter
kinds of a PageBasicAccessInfo record. -/
theorem pageOp_apply_mono (info : PageBasicAccessInfo) (op : PageOp) :
    info.accessNumberByOtherThreads ≤
        (PageOp.apply info op).accessNumberByOtherThreads ∧
    ∀ j, info.cacheLineWritingNumber j ≤
        (PageOp.apply info op).cacheLineWritingNumber j := by
  cases op with
  | pageSharing t =>
    simp only [PageOp.apply, PageBasicAccessInfo.recordAccessForPageSharing]
    split
    · exact ⟨Nat.le_succ _, fun _ => Nat.le_refl _⟩
    · exact ⟨Nat.le_refl _, fun _ => Nat.le_refl _⟩
  | cacheSharing a ty =>
    simp only [PageOp.apply, PageBasicAccessInfo.recordAccessForCacheSharing]
    split
    · refine ⟨Nat.le_refl _, fun j => ?_⟩
      by_cases hj : j = ADDRESSES.getCacheIndexInsidePage a
      · subst hj
        simp only [Function.update_same]
        exact Nat.le_succ _
      · simp only [Function.update_noteq hj]
        exact Nat.le_refl _
    · exact ⟨Nat.le_refl _, fun _ => Nat.le_refl _⟩
  | queryPageSharing => exact ⟨Nat.le_refl _, fun _ => Nat.le_refl _⟩
  | queryCacheLineSharing a => exact ⟨Nat.le_refl _, fun _ => Nat.le_refl _⟩
  | queryFirstTouch => exact ⟨Nat.le_refl _, fun _ => Nat.le_refl _⟩

/-- Claim C6: recordAccessForPageSharing increments accessNumberByOtherThreads
by exactly one when the accessing thread differs from the first-touch thread
of the record, and leaves the record entirely unchanged when the accessing
thread is the first-touch thread. -/
theorem claim6_recordAccessForPageSharing (info : PageBasicAccessInfo)
    (t : Nat) :
    (t ≠ info.firstTouchThreadId →
      info.recordAccessForPageSharing t =
        { info with
          accessNumberByOtherThreads :=
            info.accessNumberByOtherThreads + 1 }) ∧
    (t = info.firstTouchThreadId →
      info.recordAccessForPageSharing t = info) := by
  constructor
  · intro h
    have h2 : info.firstTouchThreadId ≠ t := fun e => h e.symm
    simp [PageBasicAccessInfo.recordAccessForPageSharing, h2]
  · intro h
    simp [PageBasicAccessInfo.recordAccessForPageSharing, h]

/-- Witness for claim C6 at a record first touched by thread 3, accessed by
thread 5 and then by thread 3. -/
theorem claim6_recordAccessForPageSharing_witness :
    (PageBasicAccessInfo.init 3).recordAccessForPageSharing 5 =
      { PageBasicAccessInfo.init 3 with accessNumberByOtherThreads := 1 } ∧
    (PageBasicAccessInfo.init 3).recordAccessForPageSharing 3 =
      PageBasicAccessInfo.init 3 :=
  ⟨(claim6_recordAccessForPageSharing (PageBasicAccessInfo.init 3) 5).1
      (by decide),
    (claim6_recordAccessForPageSharing (PageBasicAccessInfo.init 3) 3).2 rfl⟩

/-- Claim C7: a write access bumps exactly the writing counter of the cache
line that addr falls into, leaving every other counter slot and every other
field of the record unchanged; a read access changes nothing at all. -/
theorem claim7_recordAccessForCacheSharing (info : PageBasicAccessInfo)
    (addr : Nat) :
    (info.recordAccessForCacheSharing addr .E_ACCESS_READ = info) ∧
    ((info.recordAccessForCacheSharing addr .E_ACCESS_WRITE).firstTouchThreadId
        = info.firstTouchThreadId) ∧
    ((info.recordAccessForCacheSharing addr
        .E_ACCESS_WRITE).accessNumberByOtherThreads
        = info.accessNumberByOtherThreads) ∧
    ((info.recordAccessForCacheSharing addr
        .E_ACCESS_WRITE).cacheLineWritingNumber
        (ADDRESSES.getCacheIndexInsidePage addr)
        = info.cacheLineWritingNumber (ADDRESSES.getCacheIndexInsidePage addr)
            + 1) ∧
    (∀ j, j ≠ ADDRESSES.getCacheIndexInsidePage addr →
      (info.recordAccessForCacheSharing addr
          .E_ACCESS_WRITE).cacheLineWritingNumber j
        = info.cacheLineWritingNumber j) := by
  refine ⟨rfl, rfl, rfl, ?_, ?_⟩
  · simp [PageBasicAccessInfo.recordAccessForCacheSharing]
  · intro j hj
    simp [PageBasicAccessInfo.recordAccessForCacheSharing,
      Function.update_noteq hj]

/-- Witness for claim C7: on a fresh record, a write to address 100 (cache
line 1 of the page) sets that counter to one and leaves slot 2 at zero, and a
read changes nothing. -/
theorem claim7_recordAccessForCacheSharing_witness :
    ((PageBasicAccessInfo.init 3).recordAccessForCacheSharing 100
        .E_ACCESS_READ = PageBasicAccessInfo.init 3) ∧
    ((PageBasicAccessInfo.init 3).recordAccessForCacheSharing 100
        .E_ACCESS_WRITE).cacheLineWritingNumber
        (ADDRESSES.getCacheIndexInsidePage 100) = 1 ∧
    ((PageBasicAccessInfo.init 3).recordAccessForCacheSharing 100
        .E_ACCESS_WRITE).cacheLineWritingNumber 2 = 0 :=
  ⟨(claim7_recordAccessForCacheSharing (PageBasicAccessInfo.init 3) 100).1,
    (claim7_recordAccessForCacheSharing (PageBasicAccessInfo.init 3)
      100).2.2.2.1,
    (claim7_recordAccessForCacheSharing (PageBasicAccessInfo.init 3)
      100).2.2.2.2 2 (by decide)⟩

/-- Claim C8: needCacheLineSharingDetailInfo holds exactly when the writing
counter of the cache line of addr strictly exceeds
CACHE_SHARING_DETAIL_THRESHOLD; a counter equal to the threshold is not
flagged. -/
theorem claim8_needCacheLineSharingDetailInfo (info : PageBasicAccessInfo)
    (addr : Nat) :
    (info.needCacheLineSharingDetailInfo addr = true ↔
      CACHE_SHARING_DETAIL_THRESHOLD <
        info.cacheLineWritingNumber (ADDRESSES.getCacheIndexInsidePage addr)) ∧
    (info.cacheLineWritingNumber (ADDRESSES.getCacheIndexInsidePage addr) =
        CACHE_SHARING_DETAIL_THRESHOLD →
      info.needCacheLineSharingDetailInfo addr = false) := by
  constructor
  · simp [PageBasicAccessInfo.needCacheLineSharingDetailInfo]
  · intro h
    simp [PageBasicAccessInfo.needCacheLineSharingDetailInfo, h]

/-- Witness for claim C8: a counter one above the threshold is flagged, a
counter exactly at the threshold is not. -/
theorem claim8_needCacheLineSharingDetailInfo_witness :
    PageBasicAccessInfo.needCacheLineSharingDetailInfo
      { firstTouchThreadId := 0
        accessNumberByOtherThreads := 0
        cacheLineWritingNumber := fun _ => CACHE_SHARING_DETAIL_THRESHOLD + 1 }
      0 = true ∧
    PageBasicAccessInfo.needCacheLineSharingDetailInfo
      { firstTouchThreadId := 0
        accessNumberByOtherThreads := 0
        cacheLineWritingNumber := fun _ => CACHE_SHARING_DETAIL_THRESHOLD }
      0 = false :=
  ⟨(claim8_needCacheLineSharingDetailInfo
      { firstTouchThreadId := 0
        accessNumberByOtherThreads := 0
        cacheLineWritingNumber := fun _ => CACHE_SHARING_DETAIL_THRESHOLD + 1 }
      0).1.mpr (by decide),
    (claim8_needCacheLineSharingDetailInfo
      { firstTouchThreadId := 0
        accessNumberByOtherThreads := 0
        cacheLineWritingNumber := fun _ => CACHE_SHARING_DETAIL_THRESHOLD }
      0).2 rfl⟩

/-- Claim C9: over any sequence of record operations, both
accessNumberByOtherThreads and every slot of cacheLineWritingNumber end at
least as large as they started: the counters are non-decreasing. -/
theorem claim9_counters_monotone (info : PageBasicAccessInfo)
    (ops : List PageOp) :
    info.accessNumberByOtherThreads ≤
        (runPageOps info ops).accessNumberByOtherThreads ∧
    ∀ j, info.cacheLineWritingNumber j ≤
        (runPageOps info ops).cacheLineWritingNumber j := by
  induction ops generalizing info with
  | nil => exact ⟨Nat.le_refl _, fun _ => Nat.le_refl _⟩
  | cons op rest ih =>
    have h1 := pageOp_apply_mono info op
    have h2 := ih (PageOp.apply info op)
    exact ⟨Nat.le_trans h1.1 h2.1, fun j => Nat.le_trans (h1.2 j) (h2.2 j)⟩

/-- Helper for claim C5: the unbounded retry loop skips a prefix of losing
attempts. -/
theorem casLoopForever_failing_append (d : Int) (l : List Int)
    (s : List (Int × Bool)) :
    Automics.casLoopForever d (Automics.failing l ++ s) =
      Automics.casLoopForever d s := by
  induction l with
  | nil => rfl
  | cons a rest ih =>
    simpa only [Automics.failing, List.map_cons, List.cons_append,
      Automics.casLoopForever] using ih

/-- Helper for claim C5: when every attempt of the schedule loses, the
unbounded retry loop is still running at the end of the schedule. -/
theorem casLoopForever_failing_none (d : Int) (l : List Int) :
    Automics.casLoopForever d (Automics.failing l) = none := by
  induction l with
  | nil => rfl
  | cons a rest ih =>
    simpa only [Automics.failing, List.map_cons,
      Automics.casLoopForever] using ih

/-- Helper for claim C5: a winning attempt inside the retry budget makes the
bounded loop return the value after the addition. -/
theorem casLoopBounded_failing_success (d : Int) (l : List Int) (n : Nat)
    (v : Int) (rest : List (Int × Bool)) (h : l.length < n) :
    Automics.casLoopBounded d n (Automics.failing l ++ (v, true) :: rest) =
      some (v + d) := by
  induction l generalizing n with
  | nil =>
    cases n with
    | zero => exact absurd h (Nat.lt_irrefl 0)
    | succ n => rfl
  | cons a l2 ih =>
    cases n with
    | zero => exact absurd h (Nat.not_lt_zero _)
    | succ n =>
      have h2 : l2.length < n := Nat.lt_of_succ_lt_succ h
      exact ih n h2

/-- Helper for claim C5: when the retry budget is spent entirely on losing
attempts, the bounded loop returns the sentinel -1. -/
theorem casLoopBounded_failing_exhausted (d : Int) (n : Nat) (l : List Int)
    (s : List (Int × Bool)) (h : n ≤ l.length) :
    Automics.casLoopBounded d n (Automics.failing l ++ s) = some (-1) := by
  induction n generalizing l with
  | zero => rfl
  | succ n ih =>
    cases l with
    | nil => exact absurd h (Nat.not_succ_le_zero n)
    | cons a l2 =>
      have h2 : n ≤ l2.length := Nat.le_of_succ_le_succ h
      exact ih l2 h2

/-- Claim C5: automicIncrease returns the old value plus the delta whenever
one of its compare-and-set attempts wins, both with a non-negative and with a
negative retry budget; with a non-negative budget whose attempts all lose it
returns the sentinel -1 and the update is dropped; with a negative budget it
keeps retrying and never returns while every attempt loses. -/
theorem claim5_automicIncrease (d retryNum : Int) (l : List Int) (v : Int)
    (rest : List (Int × Bool)) :
    (0 ≤ retryNum → l.length < retryNum.toNat →
      Automics.automicIncrease d retryNum
        (Automics.failing l ++ (v, true) :: rest) = some (v + d)) ∧
    (retryNum < 0 →
      Automics.automicIncrease d retryNum
        (Automics.failing l ++ (v, true) :: rest) = some (v + d)) ∧
    (0 ≤ retryNum → retryNum.toNat ≤ l.length →
      Automics.automicIncrease d retryNum (Automics.failing l ++ rest) =
        some (-1)) ∧
    (retryNum < 0 →
      Automics.automicIncrease d retryNum (Automics.failing l) = none) := by
  refine ⟨fun h0 h1 => ?_, fun h => ?_, fun h0 h1 => ?_, fun h => ?_⟩
  · unfold Automics.automicIncrease
    rw [if_neg (Int.not_lt.mpr h0)]
    exact casLoopBounded_failing_success d l _ v rest h1
  · unfold Automics.automicIncrease
    rw [if_pos h, casLoopForever_failing_append]
    rfl
  · unfold Automics.automicIncrease
    rw [if_neg (Int.not_lt.mpr h0)]
    exact casLoopBounded_failing_exhausted d _ l rest h1
  · unfold Automics.automicIncrease
    rw [if_pos h]
    exact casLoopForever_failing_none d l

/-- Witness for claim C5: with delta 5, a winning read of 10 after one losing
attempt yields 15 under budget 2 and under unbounded retries; budget 1 spent
on one losing attempt yields -1; unbounded retries with only losing attempts
have not returned by the end of the schedule. -/
theorem claim5_automicIncrease_witness :
    Automics.automicIncrease 5 2
      (Automics.failing [3] ++ (10, true) :: []) = some 15 ∧
    Automics.automicIncrease 5 (-1)
      (Automics.failing [3] ++ (10, true) :: []) = some 15 ∧
    Automics.automicIncrease 5 1 (Automics.failing [3] ++ []) = some (-1) ∧
    Automics.automicIncrease 5 (-1) (Automics.failing [3, 4]) = none :=
  ⟨(claim5_automicIncrease 5 2 [3] 10 []).1 (by decide) (by decide),
    (claim5_automicIncrease 5 (-1) [3] 10 []).2.1 (by decide),
    (claim5_automicIncrease 5 1 [3] 10 []).2.2.1 (by decide) (by decide),
    (claim5_automicIncrease 5 (-1) [3, 4] 10 []).2.2.2 (by decide)⟩

/-- The INSERTED tag differs from the NOT_INSERT tag. -/
theorem INSERTED_ne_NOT_INSERT : INSERTED ≠ NOT_INSERT := by decide

/-- Helper for claim C4: an in-range key on an allocated fragment resolves to
the block inside that fragment. -/
theorem getDataBlock_allocated {V : Type} (M : AddressToPageIndexShadowMap V)
    (key : Nat) (hin : key >>> M.fragmentMappingBitNum < MAX_FRAGMENTS)
    (hA : M.startAddress (key >>> M.fragmentMappingBitNum) = true) :
    M.getDataBlock key =
      some (key >>> M.fragmentMappingBitNum, M.hashKey key) := by
  unfold AddressToPageIndexShadowMap.getDataBlock
  simp [Nat.not_le.mpr hin, hA]

/-- Helper for claim C4: on an in-range key whose fragment is not yet
allocated, insertIfAbsent takes the lazy createFragment path, the fresh
fragment is zero-filled, and the insertion wins the tag transition and
constructs the value in the block. -/
theorem insertIfAbsent_allocPath {V : Type} (M : AddressToPageIndexShadowMap V)
    (key : Nat) (v : V)
    (hin : key >>> M.fragmentMappingBitNum < MAX_FRAGMENTS)
    (hA : M.startAddress (key >>> M.fragmentMappingBitNum) = false) :
    M.insertIfAbsent key v =
      .ok (true, (M.createFragment key).writeSlot
        (key >>> M.fragmentMappingBitNum, M.hashKey key) v) := by
  have hdb0 : M.getDataBlock key = none := by
    unfold AddressToPageIndexShadowMap.getDataBlock
    simp [Nat.not_le.mpr hin, hA]
  have hcf : M.createFragment key =
      { M with
        startAddress := Function.update M.startAddress
          (key >>> M.fragmentMappingBitNum) true
        tags := fun loc =>
          if loc.1 = key >>> M.fragmentMappingBitNum then NOT_INSERT
          else M.tags loc
        vals := fun loc =>
          if loc.1 = key >>> M.fragmentMappingBitNum then none
          else M.vals loc } := by
    unfold AddressToPageIndexShadowMap.createFragment
    simp [Nat.not_le.mpr hin, hA]
  have hdb1 : (M.createFragment key).getDataBlock key =
      some (key >>> M.fragmentMappingBitNum, M.hashKey key) := by
    rw [hcf]
    unfold AddressToPageIndexShadowMap.getDataBlock
      AddressToPageIndexShadowMap.hashKey
    simp [Nat.not_le.mpr hin, Function.update_same]
  have htag : (M.createFragment key).tags
      (key >>> M.fragmentMappingBitNum, M.hashKey key) = NOT_INSERT := by
    rw [hcf]
    simp
  simp [AddressToPageIndexShadowMap.insertIfAbsent, hdb0, hdb1,
    AddressToPageIndexShadowMap.insertAtBlock, htag]

/-- Claim C4: shadow-map insertIfAbsent returns true exactly when it wins the
tag transition from NOT_INSERT, in which case the given value is constructed
in the slot and the tag ends INSERTED; whenever it returns false the map is
left unchanged. Stated for the single-fragment map on every key and for the
multi-fragment map on every key whose fragment index is in range, covering
both the already-allocated case and the lazy createFragment case, where the
zero-filled fresh fragment makes the insertion win; out-of-range fragment
indices make the insert paths dereference a NULL block and are settled with
claim C1. -/
theorem claim4_insertIfAbsent {V : Type}
    (m : AddressToPageIndexSingleFragShadowMap V) (key : Nat) (v : V)
    (M : AddressToPageIndexShadowMap V) (key2 : Nat) (v2 : V) :
    ((∃ m2, m.insertIfAbsent key v = .ok (true, m2)) ↔
      m.tags (AddressToPageIndexSingleFragShadowMap.getDataBlock key) =
        NOT_INSERT) ∧
    (m.tags (AddressToPageIndexSingleFragShadowMap.getDataBlock key) =
        NOT_INSERT →
      m.insertIfAbsent key v =
        .ok (true,
          m.writeSlot (AddressToPageIndexSingleFragShadowMap.getDataBlock key)
            v) ∧
      (m.writeSlot (AddressToPageIndexSingleFragShadowMap.getDataBlock key)
          v).vals (AddressToPageIndexSingleFragShadowMap.getDataBlock key) =
        some v ∧
      (m.writeSlot (AddressToPageIndexSingleFragShadowMap.getDataBlock key)
          v).tags (AddressToPageIndexSingleFragShadowMap.getDataBlock key) =
        INSERTED) ∧
    (∀ b m2, m.insertIfAbsent key v = .ok (b, m2) → b = false → m2 = m) ∧
    (key2 >>> M.fragmentMappingBitNum < MAX_FRAGMENTS →
      ((∃ M2, M.insertIfAbsent key2 v2 = .ok (true, M2)) ↔
        (M.startAddress (key2 >>> M.fragmentMappingBitNum) = false ∨
          M.tags (key2 >>> M.fragmentMappingBitNum, M.hashKey key2) =
            NOT_INSERT)) ∧
      (M.startAddress (key2 >>> M.fragmentMappingBitNum) = false →
        M.insertIfAbsent key2 v2 =
          .ok (true, (M.createFragment key2).writeSlot
            (key2 >>> M.fragmentMappingBitNum, M.hashKey key2) v2)) ∧
      (M.startAddress (key2 >>> M.fragmentMappingBitNum) = true →
        M.tags (key2 >>> M.fragmentMappingBitNum, M.hashKey key2) =
            NOT_INSERT →
        M.insertIfAbsent key2 v2 =
          .ok (true, M.writeSlot
            (key2 >>> M.fragmentMappingBitNum, M.hashKey key2) v2)) ∧
      (∀ M2, M.insertIfAbsent key2 v2 = .ok (true, M2) →
        M2.vals (key2 >>> M.fragmentMappingBitNum, M.hashKey key2) = some v2 ∧
        M2.tags (key2 >>> M.fragmentMappingBitNum, M.hashKey key2) =
          INSERTED) ∧
      (∀ b M2, M.insertIfAbsent key2 v2 = .ok (b, M2) → b = false →
        M2 = M)) := by
  refine ⟨?_, ?_, ?_, ?_⟩
  · constructor
    · rintro ⟨m2, he⟩
      by_cases h0 : m.tags
          (AddressToPageIndexSingleFragShadowMap.getDataBlock key) =
          NOT_INSERT
      · exact h0
      · by_cases h2 : m.tags
            (AddressToPageIndexSingleFragShadowMap.getDataBlock key) =
            INSERTED
        · simp [AddressToPageIndexSingleFragShadowMap.insertIfAbsent, h0,
            h2, INSERTED_ne_NOT_INSERT] at he
        · simp [AddressToPageIndexSingleFragShadowMap.insertIfAbsent, h0,
            h2, INSERTED_ne_NOT_INSERT] at he
    · intro h0
      exact ⟨m.writeSlot (AddressToPageIndexSingleFragShadowMap.getDataBlock
          key) v, by
        simp [AddressToPageIndexSingleFragShadowMap.insertIfAbsent, h0]⟩
  · intro h0
    refine ⟨by simp [AddressToPageIndexSingleFragShadowMap.insertIfAbsent, h0],
      ?_, ?_⟩
    · simp [AddressToPageIndexSingleFragShadowMap.writeSlot,
        Function.update_same]
    · simp [AddressToPageIndexSingleFragShadowMap.writeSlot,
        Function.update_same]
  · intro b m2 he hb
    subst hb
    by_cases h0 : m.tags
        (AddressToPageIndexSingleFragShadowMap.getDataBlock key) = NOT_INSERT
    · simp [AddressToPageIndexSingleFragShadowMap.insertIfAbsent, h0] at he
    · by_cases h2 : m.tags
          (AddressToPageIndexSingleFragShadowMap.getDataBlock key) = INSERTED
      · simp [AddressToPageIndexSingleFragShadowMap.insertIfAbsent, h0,
          h2, INSERTED_ne_NOT_INSERT] at he
        exact he.symm
      · simp [AddressToPageIndexSingleFragShadowMap.insertIfAbsent, h0,
          h2, INSERTED_ne_NOT_INSERT] at he
  · intro hin
    by_cases hA : M.startAddress (key2 >>> M.fragmentMappingBitNum) = true
    · have hd : M.insertIfAbsent key2 v2 =
          M.insertAtBlock (key2 >>> M.fragmentMappingBitNum, M.hashKey key2)
            v2 := by
        simp [AddressToPageIndexShadowMap.insertIfAbsent,
          getDataBlock_allocated M key2 hin hA]
      refine ⟨?_, ?_, ?_, ?_, ?_⟩
      · constructor
        · rintro ⟨M2, he⟩
          rw [hd] at he
          by_cases h0 : M.tags (key2 >>> M.fragmentMappingBitNum,
              M.hashKey key2) = NOT_INSERT
          · exact Or.inr h0
          · by_cases h2 : M.tags (key2 >>> M.fragmentMappingBitNum,
                M.hashKey key2) = INSERTED
            · simp [AddressToPageIndexShadowMap.insertAtBlock, h0, h2,
                INSERTED_ne_NOT_INSERT] at he
            · simp [AddressToPageIndexShadowMap.insertAtBlock, h0, h2,
                INSERTED_ne_NOT_INSERT] at he
        · rintro (hF | h0)
          · simp [hA] at hF
          · exact ⟨M.writeSlot (key2 >>> M.fragmentMappingBitNum,
              M.hashKey key2) v2, by
              rw [hd]
              simp [AddressToPageIndexShadowMap.insertAtBlock, h0]⟩
      · intro hF
        simp [hA] at hF
      · intro hT h0
        rw [hd]
        simp [AddressToPageIndexShadowMap.insertAtBlock, h0]
      · intro M2 he
        rw [hd] at he
        by_cases h0 : M.tags (key2 >>> M.fragmentMappingBitNum,
            M.hashKey key2) = NOT_INSERT
        · simp [AddressToPageIndexShadowMap.insertAtBlock, h0] at he
          subst he
          constructor
          · simp [AddressToPageIndexShadowMap.writeSlot,
              Function.update_same]
          · simp [AddressToPageIndexShadowMap.writeSlot,
              Function.update_same]
        · by_cases h2 : M.tags (key2 >>> M.fragmentMappingBitNum,
              M.hashKey key2) = INSERTED
          · simp [AddressToPageIndexShadowMap.insertAtBlock, h0, h2,
              INSERTED_ne_NOT_INSERT] at he
          · simp [AddressToPageIndexShadowMap.insertAtBlock, h0, h2,
              INSERTED_ne_NOT_INSERT] at he
      · intro b M2 he hb
        subst hb
        rw [hd] at he
        by_cases h0 : M.tags (key2 >>> M.fragmentMappingBitNum,
            M.hashKey key2) = NOT_INSERT
        · simp [AddressToPageIndexShadowMap.insertAtBlock, h0] at he
        · by_cases h2 : M.tags (key2 >>> M.fragmentMappingBitNum,
              M.hashKey key2) = INSERTED
          · simp [AddressToPageIndexShadowMap.insertAtBlock, h0, h2,
              INSERTED_ne_NOT_INSERT] at he
            exact he.symm
          · simp [AddressToPageIndexShadowMap.insertAtBlock, h0, h2,
              INSERTED_ne_NOT_INSERT] at he
    · have hAf : M.startAddress (key2 >>> M.fragmentMappingBitNum) = false :=
        by simpa using hA
      have hall := insertIfAbsent_allocPath M key2 v2 hin hAf
      refine ⟨?_, fun _ => hall, ?_, ?_, ?_⟩
      · exact ⟨fun _ => Or.inl hAf, fun _ =>
          ⟨(M.createFragment key2).writeSlot
            (key2 >>> M.fragmentMappingBitNum, M.hashKey key2) v2, hall⟩⟩
      · intro hT
        simp [hAf] at hT
      · intro M2 he
        rw [hall] at he
        simp at he
        subst he
        constructor
        · simp [AddressToPageIndexShadowMap.writeSlot, Function.update_same]
        · simp [AddressToPageIndexShadowMap.writeSlot, Function.update_same]
      · intro b M2 he hb
        subst hb
        rw [hall] at he
        simp at he

/-- Witness for claim C4: on the fresh multi-fragment map the first insert of
key 5 takes the lazy fragment-allocation path and wins, storing the value with
tag INSERTED; on the map with the fragment already allocated it wins directly;
the single-fragment map behaves the same. -/
theorem claim4_insertIfAbsent_witness :
    sampleSingleFragMap.insertIfAbsent 0 7 =
      .ok (true, sampleSingleFragMap.writeSlot 0 7) ∧
    (sampleSingleFragMap.writeSlot 0 7).vals 0 = some 7 ∧
    (sampleSingleFragMap.writeSlot 0 7).tags 0 = INSERTED ∧
    sampleMap.insertIfAbsent 5 9 =
      .ok (true, (sampleMap.createFragment 5).writeSlot (0, 0) 9) ∧
    ((sampleMap.createFragment 5).writeSlot (0, 0) 9).vals (0, 0) = some 9 ∧
    ((sampleMap.createFragment 5).writeSlot (0, 0) 9).tags (0, 0) =
      INSERTED ∧
    sampleMapAllocated.insertIfAbsent 5 9 =
      .ok (true, sampleMapAllocated.writeSlot (0, 0) 9) :=
  ⟨((claim4_insertIfAbsent sampleSingleFragMap 0 7 sampleMap 5 9).2.1 rfl).1,
    ((claim4_insertIfAbsent sampleSingleFragMap 0 7 sampleMap 5 9).2.1
      rfl).2.1,
    ((claim4_insertIfAbsent sampleSingleFragMap 0 7 sampleMap 5 9).2.1
      rfl).2.2,
    ((claim4_insertIfAbsent sampleSingleFragMap 0 7 sampleMap 5
      9).2.2.2 (by decide)).2.1 rfl,
    (((claim4_insertIfAbsent sampleSingleFragMap 0 7 sampleMap 5
      9).2.2.2 (by decide)).2.2.2.1
      ((sampleMap.createFragment 5).writeSlot (0, 0) 9)
      (((claim4_insertIfAbsent sampleSingleFragMap 0 7 sampleMap 5
        9).2.2.2 (by decide)).2.1 rfl)).1,
    (((claim4_insertIfAbsent sampleSingleFragMap 0 7 sampleMap 5
      9).2.2.2 (by decide)).2.2.2.1
      ((sampleMap.createFragment 5).writeSlot (0, 0) 9)
      (((claim4_insertIfAbsent sampleSingleFragMap 0 7 sampleMap 5
        9).2.2.2 (by decide)).2.1 rfl)).2,
    ((claim4_insertIfAbsent sampleSingleFragMap 0 7 sampleMapAllocated 5
      9).2.2.2 (by decide)).2.2.1 rfl rfl⟩

/-- Claim C1 evaluated at a failing input: for an address whose fragment index
equals MAX_FRAGMENTS, find returns NULL and drops the access (it is read-only),
but insertIfAbsent and insert do not drop it: createFragment cannot allocate
the out-of-range fragment, the data block stays NULL, and both operations go
on to dereference it, so the access ends in a crash instead of a clean drop. -/
theorem claim1_outOfRange_not_dropped :
    MAX_FRAGMENTS ≤ outOfRangeKey >>> sampleMap.fragmentMappingBitNum ∧
    sampleMap.find outOfRangeKey = none ∧
    sampleMap.insertIfAbsent outOfRangeKey 7 = .crash ∧
    sampleMap.insert outOfRangeKey 7 = .crash :=
  ⟨by decide, rfl, rfl, rfl⟩

/-- Claim C10 evaluated at a failing input: the address exactly
CACHE_LINE_SIZE bytes past the cache line start satisfies both assertions of
findObjectInCacheLine, yet the computed index equals CACHE_LINE_SIZE and is
out of bounds for the residentObjectsInfoPtr array of CACHE_LINE_SIZE
entries. -/
theorem claim10_findObjectIndex_outOfBounds :
    CacheLineAccessInfo.findObjectPre 0 CACHE_LINE_SIZE ∧
    ¬ CacheLineAccessInfo.indexInBounds
        (CacheLineAccessInfo.findObjectIndex 0 CACHE_LINE_SIZE) := by
  exact ⟨by decide, by decide⟩

/-- Claim C3 evaluated at a failing input: createNewDiagnoseObjInfo zeroes the
four counters as claimed, but the parameter self-assignment in the constructor
leaves the objectInfo member holding the prior contents of the pool buffer:
with a buffer previously holding pointer value 0 and argument pointer value 1,
the returned record does not reference the argument. -/
theorem claim3_createNewDiagnoseObjInfo_bug :
    (DiagnoseObjInfo.createNewDiagnoseObjInfo 0 1).objectInfo ≠ 1 ∧
    (DiagnoseObjInfo.createNewDiagnoseObjInfo 0 1).allInvalidNumInMainThread
      = 0 ∧
    (DiagnoseObjInfo.createNewDiagnoseObjInfo 0 1).allInvalidNumInOtherThreads
      = 0 ∧
    (DiagnoseObjInfo.createNewDiagnoseObjInfo 0 1).allAccessNumInMainThread
      = 0 ∧
    (DiagnoseObjInfo.createNewDiagnoseObjInfo 0 1).allAccessNumInOtherThread
      = 0 := by
  decide

/-- Claim C2 counterexample: in the registry hash map state right after
insertIfAbsent has claimed slot 0 of the fresh map by its compare-and-set and
before it stores the value, find already returns the slot, whose value has
never been stored (the flag is a two-state Bool set before the value write,
not a three-state tag set after it). -/
theorem claim2_find_returns_unstored_slot :
    (ShadowHashMap.insertIfAbsentCAS sampleHashMap 0).1 = true ∧
    (ShadowHashMap.insertIfAbsentCAS sampleHashMap 0).2.vals 0 = none ∧
    ShadowHashMap.find (ShadowHashMap.insertIfAbsentCAS sampleHashMap 0).2 0 =
      some none :=
  ⟨rfl, rfl, rfl⟩

/-- Claim C2 amended: each registry slot carries a two-state Boolean flag;
insertIfAbsent claims the slot by a compare-and-set of the flag from false to
true and returns false without modifying anything when the flag was already
set; the value is stored only after the flag is set, so between those two
steps find returns the slot without a stored value; a completed insertIfAbsent
leaves the flag set and the value stored. -/
theorem claim2_insertIfAbsent_protocol {K V : Type} (m : ShadowHashMap K V)
    (k : K) (v : V) :
    ((m.insertIfAbsent k v).1 = true ↔ m.inserted (m.hashKey k) = false) ∧
    (m.inserted (m.hashKey k) = true → m.insertIfAbsent k v = (false, m)) ∧
    (m.inserted (m.hashKey k) = false →
      (m.insertIfAbsentCAS k).2.inserted (m.hashKey k) = true ∧
      (m.insertIfAbsentCAS k).2.vals (m.hashKey k) = m.vals (m.hashKey k) ∧
      (m.insertIfAbsentCAS k).2.find k = some (m.vals (m.hashKey k)) ∧
      (m.insertIfAbsent k v).2.inserted (m.hashKey k) = true ∧
      (m.insertIfAbsent k v).2.vals (m.hashKey k) = some v) := by
  by_cases h : m.inserted (m.hashKey k) = true
  · have h2 : m.inserted (m.hashFuncPtr k) = true := h
    refine ⟨?_, fun _ => ?_, fun hf => absurd h (by simp [hf])⟩
    · simp [ShadowHashMap.insertIfAbsent, ShadowHashMap.insertIfAbsentCAS,
        ShadowHashMap.hashKey, h2]
    · simp [ShadowHashMap.insertIfAbsent, ShadowHashMap.insertIfAbsentCAS,
        ShadowHashMap.hashKey, h2]
  · have hf : m.inserted (m.hashKey k) = false := by
      simpa using h
    have hf2 : m.inserted (m.hashFuncPtr k) = false := hf
    refine ⟨?_, fun ht => absurd ht h, fun _ => ⟨?_, ?_, ?_, ?_, ?_⟩⟩
    · simp [ShadowHashMap.insertIfAbsent, ShadowHashMap.insertIfAbsentCAS,
        ShadowHashMap.insertIfAbsentStore, ShadowHashMap.hashKey, hf2]
    · simp [ShadowHashMap.insertIfAbsentCAS, ShadowHashMap.hashKey, hf2,
        Function.update_same]
    · simp [ShadowHashMap.insertIfAbsentCAS, ShadowHashMap.hashKey, hf2]
    · simp [ShadowHashMap.find, ShadowHashMap.insertIfAbsentCAS,
        ShadowHashMap.hashKey, hf2, Function.update_same]
    · simp [ShadowHashMap.insertIfAbsent, ShadowHashMap.insertIfAbsentCAS,
        ShadowHashMap.insertIfAbsentStore, ShadowHashMap.hashKey, hf2,
        Function.update_same]
    · simp [ShadowHashMap.insertIfAbsent, ShadowHashMap.insertIfAbsentCAS,
        ShadowHashMap.insertIfAbsentStore, ShadowHashMap.hashKey, hf2,
        Function.update_same]

/-- Witness for the amended claim C2 on the fresh registry map: the insert
wins, the intermediate state exposes the unstored slot through find, and the
completed insert leaves the value stored. -/
theorem claim2_insertIfAbsent_protocol_witness :
    (sampleHashMap.insertIfAbsent 0 7).1 = true ∧
    (ShadowHashMap.insertIfAbsentCAS sampleHashMap 0).2.find 0 = some none ∧
    (sampleHashMap.insertIfAbsent 0 7).2.vals 0 = some 7 :=
  ⟨(claim2_insertIfAbsent_protocol sampleHashMap 0 7).1.mpr rfl,
    ((claim2_insertIfAbsent_protocol sampleHashMap 0 7).2.2 rfl).2.2.1,
    ((claim2_insertIfAbsent_protocol sampleHashMap 0 7).2.2 rfl).2.2.2.2⟩

end NumaPerf

